import Mathlib

/-!
Shallow embedding of `src/object_creator.py` (class `ObjectCreator`) of the
SomnoSearch repository: row-to-FHIR-resource builders, coding helpers and the
static LOINC lookup table, together with theorems settling the frozen claims
about them.

Python-runtime conventions used throughout the embedding:
* a function that can raise is embedded as `Except String α`, the string being
  the exception class (and, where relevant for disambiguation, its message);
* `pandas` rows are records; a field that a concrete row may or may not carry
  is an `Option` field, and attribute access on a missing field is the
  `AttributeError` branch;
* iterating a `dict` directly yields its keys in insertion order;
* tuple/str unpacking `a, b = v` succeeds only when `v` has exactly two
  elements (for a `str`, its characters), else raises `ValueError`.
-/

set_option linter.unusedVariables false

-- ---------------------------------------------------------------------------
-- FHIR object model (the fields `object_creator.py` actually populates)
-- ---------------------------------------------------------------------------

structure Coding where
  system : String
  version : String
  code : String
  display : Option String
deriving DecidableEq, Repr

structure CodeableConcept where
  coding : List Coding
deriving DecidableEq, Repr

structure Reference where
  type : String
  reference : String
deriving DecidableEq, Repr

structure Identifier where
  value : String
deriving DecidableEq, Repr

structure Period where
  start : String
  end_ : String
deriving DecidableEq, Repr

structure Quantity where
  value : Rat
  unit : String
deriving DecidableEq, Repr

structure HumanName where
  given : List String
  family : String
deriving DecidableEq, Repr

structure Address where
  line : List String
  postalCode : String
  city : String
deriving DecidableEq, Repr

structure Patient where
  identifier : List Identifier
  name : List HumanName
  gender : String
  birthDate : String
  address : List Address
deriving DecidableEq, Repr

structure Encounter where
  identifier : List Identifier
  resource_type : String
  status : String
  period : Period
  subject : Reference
deriving DecidableEq, Repr

structure Condition where
  identifier : List Identifier
  subject : Reference
  code : CodeableConcept
  category : String
deriving DecidableEq, Repr

structure Procedure where
  identifier : List Identifier
  status : String
  subject : Reference
  code : CodeableConcept
deriving DecidableEq, Repr

/-- Observation as `create_observation` finally leaves it: line 211 of the
source rebinds `code = coding`, so the `code` attribute holds the bare
`Coding` object, not the `CodeableConcept` built two lines earlier. -/
structure Observation where
  status : String
  code : Coding
  subject : Reference
  valueQuantity : Quantity
deriving DecidableEq, Repr

/-- Modelled from the spec: the resource-name enumeration lives in the ETL
driver (`etl_process.py`), which is not under `src/`; the spec (§4.3)
declares it a closed set of resource-name variants whose `value` is the
resource-type string used in references. Only `PATIENT` is used by the
builders. -/
inductive ResourceName where
  | patient
  | encounter
deriving DecidableEq, Repr

def ResourceName.value : ResourceName → String
  | .patient => "Patient"
  | .encounter => "Encounter"

-- ---------------------------------------------------------------------------
-- Rows (pandas Series restricted to the labels each builder touches)
-- ---------------------------------------------------------------------------

structure PatientRow where
  id : String
  first_name : String
  last_name : String
  sex : String
  date_of_birth : String
  street : String
  zip : Nat
  city : String
deriving DecidableEq, Repr

structure EncounterRow where
  id : String
  admission : String
  discharge : String
deriving DecidableEq, Repr

/-- Diagnose rows: `create_condition` reads the label literally spelled
`sytem`, so both the `sytem` and the `system` label are modelled, each
optional; attribute access on a missing label raises `AttributeError`. -/
structure DiagnoseRow where
  id : String
  sytem : Option String
  system : Option String
  version : String
  code : String
  type : String
deriving DecidableEq, Repr

structure ProcedureRow where
  id : String
  code_system : String
  code_version : String
  code : String
deriving DecidableEq, Repr

/-- Observation rows map column labels to numeric values (`None` = label
absent from the row). -/
def ObservationRow : Type := String → Option Rat

-- ---------------------------------------------------------------------------
-- The static LOINC lookup table (`_observation_loinc_mapping_dict`)
-- ---------------------------------------------------------------------------

def observation_loinc_mapping : List (String × String × String × String) :=
  [ ("Apnoe Index (n/h)",        "90562-0", "{events}/h", "Apnea index"),
    ("Hypnopnoe Index (n/h)",    "90561-2", "{events}/h", "Hypopnea index"),
    ("RERA Index (n/h)",         "90565-3", "{events}/h", "Respiratory effort-related arousal index"),
    ("AHI",                      "69990-0", "{events}/h", "Apnea hypopnea index 24 hour"),
    ("RDI",                      "90566-1", "{events}/h", "Respiratory disturbance index"),
    ("RDI / AHI (n/h)",          "",        "{events}/h", ""),
    ("Schlaflatenz (min)",       "",        "min",        ""),
    ("Alter (Jahre)",            "30525-0", "a",          "Age"),
    ("Arousal Index (n/h)",      "",        "{events}/h", ""),
    ("Schnarchzeit (min)",       "",        "min",        ""),
    ("totale Schlafzeit (min)",  "93832-4", "min",        "Sleep duration"),
    ("Schnarchen Total (%TST)",  "",        "%",          ""),
    ("PLM Index",                "",        "",           "") ]

/-- Dictionary lookup `_observation_loinc_mapping_dict[column_name]`. -/
def lookupColumn (name : String) : Option (String × String × String) :=
  (observation_loinc_mapping.find? (fun e => e.1 == name)).map (fun e => e.2)

/-- Key list in insertion order: what `for ... in dict` iterates. -/
def observation_columns : List String :=
  observation_loinc_mapping.map (fun e => e.1)

-- ---------------------------------------------------------------------------
-- _resolve_observation_column
-- ---------------------------------------------------------------------------

/-- Python `code, unit = v` where `v` is a 3-tuple: unpacking three values
into two targets always raises `ValueError`. -/
def pyUnpackTripleIntoPair (v : String × String × String) :
    Except String (String × String) :=
  .error "ValueError: too many values to unpack (expected 2)"

/-- Embedding of `ObjectCreator._resolve_observation_column` (lines 112-123).
On success the result carries the returned triple together with the list of
warnings emitted on the way. Line 118 of the source is the
`pyUnpackTripleIntoPair` step. -/
def resolve_observation_column (column_name : String) :
    Except String ((String × String × String) × List String) := do
  match lookupColumn column_name with
  | none => .error ("Invalid column name: \"" ++ column_name ++ "\"")
  | some v =>
    let (code, unit) ← pyUnpackTripleIntoPair v
    let warns := if code = "" then ["Code is unknown for column name: \"" ++ column_name ++ "\""] else []
    .ok (v, warns)

-- ---------------------------------------------------------------------------
-- Reference / identifier helpers
-- ---------------------------------------------------------------------------

def construct_reference (resource_name : ResourceName) (ref_id : String) : Reference :=
  { type := resource_name.value,
    reference := resource_name.value ++ "/" ++ ref_id }

def construct_identifier (identifier : String) : List Identifier :=
  [⟨identifier⟩]

-- ---------------------------------------------------------------------------
-- create_observation
-- ---------------------------------------------------------------------------

/-- Loop-header unpacking `column_name, (obs_loinc_code, unit, display) = key`
where `key` is a `str` (a dict iterated directly yields keys). A string
unpacks into exactly as many targets as it has characters, each a 1-char
string; a 1-char string can never unpack into a 3-tuple. -/
def pyUnpackKeyAsPair (key : String) :
    Except String (String × (String × String × String)) :=
  match key.data with
  | [c1, c2] => .error "ValueError: not enough values to unpack (expected 3, got 1)"
  | [c1] => .error "ValueError: not enough values to unpack (expected 2, got 1)"
  | [] => .error "ValueError: not enough values to unpack (expected 2, got 0)"
  | _ => .error "ValueError: too many values to unpack (expected 2)"

/-- One iteration per table key, in insertion order, mirroring the loop body
of `create_observation` (lines 194-220). -/
def create_observation_go (row : ObservationRow) (subject_ref_id : String) :
    List String → Except String (List Observation)
  | [] => .ok []
  | key :: rest => do
    let (column_name, (obs_loinc_code, unit, display)) ← pyUnpackKeyAsPair key
    match row column_name with
    | none => .error ("KeyError: " ++ column_name)
    | some v =>
      let coding : Coding :=
        { system := "http://loinc.org", version := "2.69",
          code := obs_loinc_code, display := some display }
      let observation : Observation :=
        { status := "final", code := coding,
          subject := construct_reference .patient subject_ref_id,
          valueQuantity := { value := v, unit := unit } }
      let tail ← create_observation_go row subject_ref_id rest
      .ok (observation :: tail)

/-- Embedding of `ObjectCreator.create_observation` (lines 190-222):
`for column_name, (obs_loinc_code, unit, display) in dict:` iterates the
dict's keys. -/
def create_observation (observation_row : ObservationRow) (subject_ref_id : String) :
    Except String (List Observation) :=
  create_observation_go observation_row subject_ref_id observation_columns

-- ---------------------------------------------------------------------------
-- create_condition
-- ---------------------------------------------------------------------------

/-- Embedding of `ObjectCreator.create_condition` (lines 166-188). Line 169
reads `diagnose_row.sytem` (sic); a row without that label raises
`AttributeError`. Line 176 `coding.display: diagnose_row.type` is an
annotation, not an assignment, and under `from __future__ import annotations`
it is never even evaluated, so `display` stays unset and `type` is unread. -/
def create_condition (diagnose_row : DiagnoseRow) (subject_ref_id encounter_ref_id : String) :
    Except String Condition :=
  match diagnose_row.sytem with
  | none => .error "AttributeError: 'Series' object has no attribute 'sytem'"
  | some s =>
    if s ≠ "ICD-10-GM" then .error "AssertionError"
    else if diagnose_row.version ≠ "2020" then .error "AssertionError"
    else
      .ok { identifier := construct_identifier diagnose_row.id,
            subject := construct_reference .patient subject_ref_id,
            code := { coding := [{ system := "http://fhir.de/CodeSystem/dimdi/icd-10-gm",
                                   version := "2020",
                                   code := diagnose_row.code,
                                   display := none }] },
            category := "encounter-diagnosis" }

/-- The Condition value `create_condition` returns on the success path. -/
def condition_result (diagnose_row : DiagnoseRow) (subject_ref_id : String) : Condition :=
  { identifier := construct_identifier diagnose_row.id,
    subject := construct_reference .patient subject_ref_id,
    code := { coding := [{ system := "http://fhir.de/CodeSystem/dimdi/icd-10-gm",
                           version := "2020",
                           code := diagnose_row.code,
                           display := none }] },
    category := "encounter-diagnosis" }

-- ---------------------------------------------------------------------------
-- _parse_date_time
-- ---------------------------------------------------------------------------

/-- Python `str.split(sep)` for a one-character separator: split at every
occurrence, keeping empty chunks. Helper returning (first chunk, later
chunks). -/
def splitAux (c : Char) : List Char → List Char × List (List Char)
  | [] => ([], [])
  | x :: xs =>
    let r := splitAux c xs
    if x = c then ([], r.1 :: r.2) else (x :: r.1, r.2)

def pySplit (c : Char) (l : List Char) : List (List Char) :=
  (splitAux c l).1 :: (splitAux c l).2

/-- Python list indexing `l[i]` for non-negative `i`: `IndexError` when out
of range. -/
def pyIndex (l : List (List Char)) (i : Nat) : Except String (List Char) :=
  match l.get? i with
  | some x => .ok x
  | none => .error "IndexError: list index out of range"

/-- Two-digit zero-padded decimal rendering (used by `%m`, `%d`, `%H`, `%M`). -/
def pad2 (n : Nat) : List Char := [Nat.digitChar (n / 10 % 10), Nat.digitChar (n % 10)]

/-- Four-digit zero-padded decimal rendering (`%Y` in the claims' range). -/
def pad4 (n : Nat) : List Char :=
  [Nat.digitChar (n / 1000 % 10), Nat.digitChar (n / 100 % 10),
   Nat.digitChar (n / 10 % 10), Nat.digitChar (n % 10)]

/-- Embedding of `ObjectCreator._parse_date_time` (lines 56-65), parameterized
by the character list that `strftime('%z', gmtime())` returns at run time.
The source takes `split(' ')[0]`, `split(' ')[1].split('.')[0]`,
`split(' ')[1].split('.')[1][:3]` and appends `tz[:3] + ':' + tz[1:-2]`. -/
def parse_date_time_tz (tzRaw : List Char) (datetime_str : String) : Except String String := do
  let parts := pySplit ' ' datetime_str.data
  let case_date ← pyIndex parts 0
  let snd ← pyIndex parts 1
  let timeParts := pySplit '.' snd
  let case_time ← pyIndex timeParts 0
  let case_ms_full ← pyIndex timeParts 1
  let case_ms := case_ms_full.take 3
  let case_tz := tzRaw.take 3 ++ ':' :: (tzRaw.drop 1).dropLast.dropLast
  .ok (String.mk (case_date ++ 'T' :: case_time ++ '.' :: case_ms ++ case_tz))

/-- `ObjectCreator._parse_date_time` as called: `gmtime()` yields the UTC
time-struct whose offset is zero on every system, so `strftime('%z', ...)`
is "+0000" regardless of the local timezone. -/
def parse_date_time (datetime_str : String) : Except String String :=
  parse_date_time_tz ['+', '0', '0', '0', '0'] datetime_str

/-- Modelled from the spec: the spec says `parseDateTime` appends "the local
system's current UTC offset formatted as ±HH:MM"; this renders that offset
(given in minutes east of UTC) the way the spec's words describe. -/
def spec_local_utc_offset (offsetMinutes : Int) : String :=
  (if offsetMinutes < 0 then "-" else "+")
    ++ String.mk (pad2 (offsetMinutes.natAbs / 60))
    ++ ":" ++ String.mk (pad2 (offsetMinutes.natAbs % 60))

-- ---------------------------------------------------------------------------
-- _parse_date
-- ---------------------------------------------------------------------------

/-- Python `int(...)` of one matched digit character. -/
def digVal (c : Char) : Nat := c.toNat - 48

/-- The regex `(?P<day>\d{2})\.(?P<month>\d{2})\.(?P<year>\d{4})` under
`.match`: anchored at the start of the string, no end anchor, so it matches
exactly when the first ten characters have the shape, whatever follows.
Digits are the ASCII digits (the only digits the table input involves). -/
def matchDatePattern (l : List Char) : Option (Nat × Nat × Nat) :=
  match l with
  | d1 :: d2 :: dot1 :: m1 :: m2 :: dot2 :: y1 :: y2 :: y3 :: y4 :: _ =>
    if (dot1 == '.') && (dot2 == '.') && d1.isDigit && d2.isDigit && m1.isDigit
        && m2.isDigit && y1.isDigit && y2.isDigit && y3.isDigit && y4.isDigit then
      some (10 * digVal d1 + digVal d2, 10 * digVal m1 + digVal m2,
            1000 * digVal y1 + 100 * digVal y2 + 10 * digVal y3 + digVal y4)
    else none
  | _ => none

def isLeapYear (y : Nat) : Bool := (y % 4 == 0 && y % 100 != 0) || y % 400 == 0

def daysInMonth (y m : Nat) : Nat :=
  if m = 2 then (if isLeapYear y then 29 else 28)
  else if m = 4 ∨ m = 6 ∨ m = 9 ∨ m = 11 then 30
  else 31

/-- Valid Gregorian calendar date within `datetime`'s year range 1..9999. -/
def isRealCalendarDate (y m d : Nat) : Bool :=
  decide (1 ≤ y) && decide (y ≤ 9999) && decide (1 ≤ m) && decide (m ≤ 12)
    && decide (1 ≤ d) && decide (d ≤ daysInMonth y m)

/-- pandas `Timestamp` nanosecond-epoch bounds restricted to midnights:
`Timestamp.min` is 1677-09-21 00:12:43.145224193 and `Timestamp.max` is
2262-04-11 23:47:16.854775807, so constructible day-precision dates run from
1677-09-22 through 2262-04-11 (encoded here as `yyyymmdd` numbers, valid
because `m ≤ 12 < 100` and `d ≤ 31 < 100`). -/
def timestampInBounds (y m d : Nat) : Bool :=
  decide (16770922 ≤ y * 10000 + m * 100 + d) && decide (y * 10000 + m * 100 + d ≤ 22620411)

/-- What `pd.Timestamp(day=d, month=m, year=y)` accepts without raising. -/
def pdTimestampValid (y m d : Nat) : Bool :=
  isRealCalendarDate y m d && timestampInBounds y m d

/-- Embedding of `ObjectCreator._parse_date` (lines 67-84): anchored regex
match (`AssertionError` when it fails), then `pd.Timestamp(day, month, year)`
(`ValueError` on a non-date, `OutOfBoundsDatetime` outside the nanosecond
range), then `%Y-%m-%d` formatting. -/
def parse_date (date_str : String) : Except String String :=
  match matchDatePattern date_str.data with
  | none => .error "AssertionError"
  | some (d, m, y) =>
    if isRealCalendarDate y m d then
      if timestampInBounds y m d then
        .ok (String.mk (pad4 y ++ '-' :: (pad2 m ++ '-' :: pad2 d)))
      else .error "OutOfBoundsDatetime"
    else .error "ValueError"

-- ---------------------------------------------------------------------------
-- Remaining builders: _map_gender, create_patient, create_encounter,
-- create_procedure
-- ---------------------------------------------------------------------------

/-- Embedding of `ObjectCreator._map_gender` (lines 86-93). -/
def map_gender (gender : String) : Except String String :=
  if gender = "m" then .ok "male"
  else if gender = "f" ∨ gender = "w" then .ok "female"
  else .error ("Unknown gender code " ++ gender)

/-- Embedding of `ObjectCreator.create_patient` (lines 144-163); `str(zip)`
is decimal rendering of the integer zip code. -/
def create_patient (patient_row : PatientRow) : Except String Patient := do
  let name : HumanName := { given := [patient_row.first_name], family := patient_row.last_name }
  let address : Address := { line := [patient_row.street],
                             postalCode := toString patient_row.zip,
                             city := patient_row.city }
  let gender ← map_gender patient_row.sex
  let birthDate ← parse_date patient_row.date_of_birth
  .ok { identifier := construct_identifier patient_row.id,
        name := [name],
        gender := gender,
        birthDate := birthDate,
        address := [address] }

/-- Embedding of `ObjectCreator.create_encounter` (lines 127-141). -/
def create_encounter (case_row : EncounterRow) (subject_ref_id : String) :
    Except String Encounter := do
  let start ← parse_date_time case_row.admission
  let end_ ← parse_date_time case_row.discharge
  .ok { identifier := construct_identifier case_row.id,
        resource_type := "Encounter",
        status := "finished",
        period := { start := start, end_ := end_ },
        subject := construct_reference .patient subject_ref_id }

/-- Embedding of `ObjectCreator.create_procedure` (lines 224-244). -/
def create_procedure (procedure_row : ProcedureRow) (subject_ref_id : String) :
    Except String Procedure :=
  if procedure_row.code_system ≠ "OPS" then .error "AssertionError"
  else if procedure_row.code_version ≠ "2020" then .error "AssertionError"
  else
    .ok { identifier := construct_identifier procedure_row.id,
          status := "completed",
          subject := construct_reference .patient subject_ref_id,
          code := { coding := [{ system := "http://fhir.de/CodeSystem/dimdi/ops",
                                 version := "2020",
                                 code := procedure_row.code,
                                 display := none }] } }

/-- The spec's §8 sample patient row. -/
def sample_patient_row : PatientRow :=
  { id := "P1", first_name := "Anna", last_name := "Muster", sex := "w",
    date_of_birth := "01.01.1980", street := "Main St", zip := 12345, city := "Berlin" }

def sample_encounter_row : EncounterRow :=
  { id := "E1", admission := "2021-03-04 10:15:30.1234", discharge := "2021-03-06 09:00:00.000" }

def sample_diagnose_row : DiagnoseRow :=
  { id := "D1", sytem := some "ICD-10-GM", system := none, version := "2020",
    code := "G47.31", type := "Schlafapnoe" }

def sample_procedure_row : ProcedureRow :=
  { id := "OP1", code_system := "OPS", code_version := "2020", code := "1-790" }

def sample_observation_row : ObservationRow := fun _ => some 1

theorem create_condition_missing_sytem (row : DiagnoseRow) (sid eid : String)
    (hs : row.sytem = none) :
    create_condition row sid eid =
      .error "AttributeError: 'Series' object has no attribute 'sytem'" := by
  unfold create_condition
  rw [hs]

theorem create_condition_bad_sytem (row : DiagnoseRow) (sid eid v : String)
    (hs : row.sytem = some v) (hv : v ≠ "ICD-10-GM") :
    create_condition row sid eid = .error "AssertionError" := by
  unfold create_condition
  rw [hs]
  simp [hv]

theorem create_condition_bad_version (row : DiagnoseRow) (sid eid : String)
    (hs : row.sytem = some "ICD-10-GM") (hv : row.version ≠ "2020") :
    create_condition row sid eid = .error "AssertionError" := by
  unfold create_condition
  rw [hs]
  simp [hv]

theorem create_condition_ok (row : DiagnoseRow) (sid eid : String)
    (hs : row.sytem = some "ICD-10-GM") (hv : row.version = "2020") :
    create_condition row sid eid = .ok (condition_result row sid) := by
  unfold create_condition condition_result
  rw [hs]
  simp [hv]

theorem except_bind_ok {α β : Type} (a : α) (f : α → Except String β) :
    (Except.ok a : Except String α) >>= f = f a := rfl

theorem except_bind_error {α β : Type} (e : String) (f : α → Except String β) :
    (Except.error e : Except String α) >>= f = .error e := rfl

theorem splitAux_not_mem (c : Char) (l : List Char) (h : c ∉ l) : splitAux c l = (l, []) := by
  induction l with
  | nil => rfl
  | cons x xs ih =>
    have hx : ¬ x = c := fun he => h (he ▸ List.mem_cons_self x xs)
    have hxs : c ∉ xs := fun hm => h (List.mem_cons_of_mem x hm)
    simp [splitAux, hx, ih hxs]

theorem splitAux_append (c : Char) (a b : List Char) (ha : c ∉ a) :
    splitAux c (a ++ c :: b) = (a, (splitAux c b).1 :: (splitAux c b).2) := by
  induction a with
  | nil => simp [splitAux]
  | cons x xs ih =>
    have hx : ¬ x = c := fun he => ha (he ▸ List.mem_cons_self x xs)
    have hxs : c ∉ xs := fun hm => ha (List.mem_cons_of_mem x hm)
    simp [splitAux, hx, ih hxs]

theorem pySplit_single (c : Char) (l : List Char) (h : c ∉ l) : pySplit c l = [l] := by
  simp [pySplit, splitAux_not_mem c l h]

theorem pySplit_pair (c : Char) (a b : List Char) (ha : c ∉ a) (hb : c ∉ b) :
    pySplit c (a ++ c :: b) = [a, b] := by
  simp [pySplit, splitAux_append c a b ha, splitAux_not_mem c b hb]

theorem digitChar_spec : ∀ k < 10, (Nat.digitChar k).isDigit = true ∧ digVal (Nat.digitChar k) = k := by
  decide

theorem daysInMonth_le_31 (y m : Nat) : daysInMonth y m ≤ 31 := by
  unfold daysInMonth
  split
  · split <;> omega
  · split <;> omega

theorem matchDatePattern_pad (d m y : Nat) (rest : List Char)
    (hd : d < 100) (hm : m < 100) (hy : y < 10000) :
    matchDatePattern (pad2 d ++ '.' :: (pad2 m ++ '.' :: (pad4 y ++ rest))) = some (d, m, y) := by
  have h1 := digitChar_spec (d / 10 % 10) (Nat.mod_lt _ (by norm_num))
  have h2 := digitChar_spec (d % 10) (Nat.mod_lt _ (by norm_num))
  have h3 := digitChar_spec (m / 10 % 10) (Nat.mod_lt _ (by norm_num))
  have h4 := digitChar_spec (m % 10) (Nat.mod_lt _ (by norm_num))
  have h5 := digitChar_spec (y / 1000 % 10) (Nat.mod_lt _ (by norm_num))
  have h6 := digitChar_spec (y / 100 % 10) (Nat.mod_lt _ (by norm_num))
  have h7 := digitChar_spec (y / 10 % 10) (Nat.mod_lt _ (by norm_num))
  have h8 := digitChar_spec (y % 10) (Nat.mod_lt _ (by norm_num))
  simp only [pad2, pad4, List.cons_append, List.nil_append, matchDatePattern]
  rw [if_pos]
  · simp only [Option.some.injEq, Prod.mk.injEq]
    rw [h1.2, h2.2, h3.2, h4.2, h5.2, h6.2, h7.2, h8.2]
    refine ⟨by omega, by omega, by omega⟩
  · simp [h1.1, h2.1, h3.1, h4.1, h5.1, h6.1, h7.1, h8.1]

/-- Shared success computation for `_parse_date`: any pattern-valid,
Timestamp-representable date renders to the normalized form, whatever
trails after the first ten characters. -/
theorem parse_date_pad (d m y : Nat) (rest : List Char) (h : pdTimestampValid y m d = true) :
    parse_date (String.mk (pad2 d ++ '.' :: (pad2 m ++ '.' :: (pad4 y ++ rest)))) =
      .ok (String.mk (pad4 y ++ '-' :: (pad2 m ++ '-' :: pad2 d))) := by
  have hval := h
  unfold pdTimestampValid at h
  rw [Bool.and_eq_true] at h
  have hreal := h.1
  have hbounds := h.2
  have hnum : 1 ≤ y ∧ y ≤ 9999 ∧ 1 ≤ m ∧ m ≤ 12 ∧ 1 ≤ d ∧ d ≤ daysInMonth y m := by
    unfold isRealCalendarDate at hreal
    simp only [Bool.and_eq_true, decide_eq_true_eq] at hreal
    exact ⟨hreal.1.1.1.1.1, hreal.1.1.1.1.2, hreal.1.1.1.2, hreal.1.1.2, hreal.1.2, hreal.2⟩
  have hd : d < 100 := lt_of_le_of_lt hnum.2.2.2.2.2 (lt_of_le_of_lt (daysInMonth_le_31 y m) (by norm_num))
  have hm : m < 100 := by omega
  have hy : y < 10000 := by omega
  unfold parse_date
  rw [show (String.mk (pad2 d ++ '.' :: (pad2 m ++ '.' :: (pad4 y ++ rest)))).data
      = pad2 d ++ '.' :: (pad2 m ++ '.' :: (pad4 y ++ rest)) from rfl]
  rw [matchDatePattern_pad d m y rest hd hm hy]
  simp [hreal, hbounds]

-- ---------------------------------------------------------------------------
-- Claim theorems C1-C3
-- ---------------------------------------------------------------------------

/-- C1: the claim says `createObservation(row, subjectId)` returns one
Observation per entry of the 13-entry LOINC table. In the code the loop
header `for column_name, (obs_loinc_code, unit, display) in
_observation_loinc_mapping_dict:` iterates the dict's KEYS (missing
`.items()`), and unpacking the first key — the 17-character string
"Apnoe Index (n/h)" — into two targets raises `ValueError` before any
Observation is built: the call fails for every row and subject id. -/
theorem create_observation_always_raises (row : ObservationRow) (subject_ref_id : String) :
    create_observation row subject_ref_id =
      .error "ValueError: too many values to unpack (expected 2)" := rfl

/-- C2: the claim says `resolveObservationColumn("AHI")` returns the triple
("69990-0", "\x7bevents\x7d/h", "Apnea hypopnea index 24 hour") and that
unknown columns fail. In the code, line 118 `code, unit = dict[column_name]`
unpacks the stored 3-tuple into two targets, so every KNOWN column raises
`ValueError` before the return statement (which would have returned the
triple, as the claim and the spec intend); only the unknown-column half
behaves as claimed. -/
theorem resolve_observation_column_ahi_raises :
    resolve_observation_column "AHI" =
        .error "ValueError: too many values to unpack (expected 2)"
    ∧ lookupColumn "AHI" = some ("69990-0", "{events}/h", "Apnea hypopnea index 24 hour")
    ∧ resolve_observation_column "unknown-col" =
        .error "Invalid column name: \"unknown-col\"" := by
  refine ⟨rfl, rfl, rfl⟩

/-- C3: the claim says that for empty-code columns such as
"RDI / AHI (n/h)" `resolveObservationColumn` returns normally (empty code,
declared unit) and only warns. In the code the `ValueError` of line 118
fires before the warning is ever reached, so the call raises instead. -/
theorem resolve_observation_column_empty_code_raises :
    lookupColumn "RDI / AHI (n/h)" = some ("", "{events}/h", "")
    ∧ resolve_observation_column "RDI / AHI (n/h)" =
        .error "ValueError: too many values to unpack (expected 2)" := by
  refine ⟨rfl, rfl⟩


-- ---------------------------------------------------------------------------
-- Claim theorems C4, C8, C9
-- ---------------------------------------------------------------------------

/-- C4 counterexample: the claim says a row whose `system` field differs from
"ICD-10-GM" always fails. The assertion actually reads the field literally
named `sytem`, so a row carrying `system = "OPS"` but `sytem = "ICD-10-GM"`
(version "2020") succeeds. -/
theorem create_condition_wrong_system_field_succeeds :
    (DiagnoseRow.mk "D1" (some "ICD-10-GM") (some "OPS") "2020" "G47.31" "Schlafapnoe").system
        = some "OPS"
    ∧ (some "OPS" : Option String) ≠ some "ICD-10-GM"
    ∧ create_condition
        (DiagnoseRow.mk "D1" (some "ICD-10-GM") (some "OPS") "2020" "G47.31" "Schlafapnoe")
        "P1" "E1"
      = .ok (condition_result
        (DiagnoseRow.mk "D1" (some "ICD-10-GM") (some "OPS") "2020" "G47.31" "Schlafapnoe")
        "P1") := by
  refine ⟨rfl, by decide, rfl⟩

/-- C4 (amended): for every row whose `sytem` field (the literally-named row
field the assertion reads) is absent or differs from "ICD-10-GM", or whose
`version` field differs from "2020", `create_condition` fails, regardless of
the validity of all other fields; for rows passing both assertions it
returns a Condition whose coded concept has system
"http://fhir.de/CodeSystem/dimdi/icd-10-gm" and version "2020" and whose
category is "encounter-diagnosis". -/
theorem create_condition_spec (row : DiagnoseRow) (sid eid : String) :
    (row.sytem ≠ some "ICD-10-GM" ∨ row.version ≠ "2020" →
      ∃ e, create_condition row sid eid = .error e)
    ∧ (row.sytem = some "ICD-10-GM" → row.version = "2020" →
      create_condition row sid eid = .ok (condition_result row sid)
      ∧ (condition_result row sid).code.coding =
          [{ system := "http://fhir.de/CodeSystem/dimdi/icd-10-gm", version := "2020",
             code := row.code, display := none }]
      ∧ (condition_result row sid).category = "encounter-diagnosis") := by
  constructor
  · intro h
    cases hs : row.sytem with
    | none => exact ⟨_, create_condition_missing_sytem row sid eid hs⟩
    | some v =>
      by_cases h1 : v = "ICD-10-GM"
      · have h2 : row.version ≠ "2020" := by
          rcases h with h | h
          · exact absurd (by rw [hs, h1]) h
          · exact h
        subst h1
        exact ⟨_, create_condition_bad_version row sid eid hs h2⟩
      · exact ⟨_, create_condition_bad_sytem row sid eid v hs h1⟩
  · intro h1 h2
    exact ⟨create_condition_ok row sid eid h1 h2, rfl, rfl⟩

/-- C4 witness: the amended claim applied at a concrete rejected row and a
concrete accepted row. -/
theorem create_condition_spec_holds :
    (∃ e, create_condition (DiagnoseRow.mk "D2" (some "ICD-9") none "2020" "X" "t") "P1" "E1"
            = .error e)
    ∧ create_condition (DiagnoseRow.mk "D3" (some "ICD-10-GM") none "2020" "G47.31" "t") "P1" "E1"
        = .ok (condition_result (DiagnoseRow.mk "D3" (some "ICD-10-GM") none "2020" "G47.31" "t")
            "P1") := by
  refine ⟨(create_condition_spec _ "P1" "E1").1 (Or.inl (by decide)),
          ((create_condition_spec _ "P1" "E1").2 rfl rfl).1⟩

/-- C8: the terminology assertion reads the row field literally named
`sytem`: a row that carries `system = "ICD-10-GM"` and `version = "2020"`
but no field named exactly `sytem` fails with an attribute-lookup error
rather than succeeding. -/
theorem create_condition_sytem_attribute_error
    (row : DiagnoseRow) (sid eid : String)
    (hs : row.sytem = none) (hsys : row.system = some "ICD-10-GM")
    (hv : row.version = "2020") :
    create_condition row sid eid =
      .error "AttributeError: 'Series' object has no attribute 'sytem'" :=
  create_condition_missing_sytem row sid eid hs

/-- C8 witness: the theorem at a concrete row carrying a correctly spelled
`system` field only. -/
theorem create_condition_sytem_attribute_error_holds :
    create_condition (DiagnoseRow.mk "D4" none (some "ICD-10-GM") "2020" "G47.31" "t") "P1" "E1"
      = .error "AttributeError: 'Series' object has no attribute 'sytem'" :=
  create_condition_sytem_attribute_error _ "P1" "E1" rfl rfl rfl

/-- Inversion of the success path of `create_condition`. -/
theorem create_condition_ok_inv (row : DiagnoseRow) (sid eid : String) (c : Condition)
    (h : create_condition row sid eid = .ok c) :
    row.sytem = some "ICD-10-GM" ∧ row.version = "2020" ∧ c = condition_result row sid := by
  cases hs : row.sytem with
  | none =>
    rw [create_condition_missing_sytem row sid eid hs] at h
    exact Except.noConfusion h
  | some v =>
    by_cases h1 : v = "ICD-10-GM"
    · subst h1
      by_cases h2 : row.version = "2020"
      · rw [create_condition_ok row sid eid hs h2] at h
        injection h with h
        exact ⟨rfl, h2, h.symm⟩
      · rw [create_condition_bad_version row sid eid hs h2] at h
        exact Except.noConfusion h
    · rw [create_condition_bad_sytem row sid eid v hs h1] at h
      exact Except.noConfusion h

/-- C9: whenever `create_condition` succeeds, the single coding of the
returned Condition carries system, version and code but no display value,
and the row's `type` field never influences the output (the display line is
a bare, never-evaluated annotation). -/
theorem create_condition_no_display
    (row : DiagnoseRow) (sid eid : String) (c : Condition)
    (h : create_condition row sid eid = .ok c) :
    c.code.coding = [{ system := "http://fhir.de/CodeSystem/dimdi/icd-10-gm",
                       version := "2020", code := row.code, display := none }]
    ∧ ∀ t, create_condition { row with type := t } sid eid = .ok c := by
  obtain ⟨hs, h2, hc⟩ := create_condition_ok_inv row sid eid c h
  subst hc
  refine ⟨rfl, fun t => ?_⟩
  have h3 : ({ row with type := t } : DiagnoseRow).sytem = some "ICD-10-GM" := hs
  exact create_condition_ok { row with type := t } sid eid h3 h2

/-- C9 witness: the theorem applied at a concrete succeeding row, with the
`type` field then replaced by a different value. -/
theorem create_condition_no_display_holds :
    (condition_result (DiagnoseRow.mk "D5" (some "ICD-10-GM") none "2020" "G47.31" "Schlafapnoe")
        "P1").code.coding
      = [{ system := "http://fhir.de/CodeSystem/dimdi/icd-10-gm",
           version := "2020", code := "G47.31", display := none }]
    ∧ create_condition
        { (DiagnoseRow.mk "D5" (some "ICD-10-GM") none "2020" "G47.31" "Schlafapnoe") with
            type := "anything else" } "P1" "E1"
      = .ok (condition_result
          (DiagnoseRow.mk "D5" (some "ICD-10-GM") none "2020" "G47.31" "Schlafapnoe") "P1") := by
  have h := create_condition_no_display
    (DiagnoseRow.mk "D5" (some "ICD-10-GM") none "2020" "G47.31" "Schlafapnoe") "P1" "E1"
    (condition_result (DiagnoseRow.mk "D5" (some "ICD-10-GM") none "2020" "G47.31" "Schlafapnoe")
      "P1")
    (create_condition_ok _ "P1" "E1" rfl rfl)
  exact ⟨h.1, h.2 "anything else"⟩


-- ---------------------------------------------------------------------------
-- Claim theorems C5
-- ---------------------------------------------------------------------------

/-- C5 counterexample: the claim says the appended offset is "the local-system
current UTC offset". The source derives it from `gmtime()`, so it is the
constant "+00:00" on every system: at the claim's own example input, on a
system whose current local UTC offset is +60 minutes (e.g. Germany in
winter) the appended "+00:00" is not the local offset "+01:00". -/
theorem parse_date_time_not_local_offset :
    parse_date_time "2021-03-04 10:15:30.1234" = .ok ("2021-03-04T10:15:30.123" ++ "+00:00")
    ∧ spec_local_utc_offset 60 = "+01:00"
    ∧ ("+00:00" : String) ≠ spec_local_utc_offset 60 := by
  refine ⟨rfl, rfl, by decide⟩

/-- C5 (amended): for every input of the form "date time.frac" (one space,
one dot, at least three sub-second characters), `parse_date_time` returns
date ++ "T" ++ time ++ "." ++ (first three characters of frac) ++ "+00:00" —
the appended offset is the constant gmtime-derived "+00:00", independent of
the local system — and every input missing the space, or missing the dot
after the space, fails with an index error. -/
theorem parse_date_time_spec :
    (∀ d t f : List Char, ' ' ∉ d → ' ' ∉ t → ' ' ∉ f → '.' ∉ t → '.' ∉ f →
      3 ≤ f.length →
      parse_date_time (String.mk (d ++ ' ' :: (t ++ '.' :: f))) =
        .ok (String.mk (d ++ 'T' :: (t ++ '.' :: (f.take 3 ++ ['+', '0', '0', ':', '0', '0'])))))
    ∧ (∀ s : String, ' ' ∉ s.data → ∃ e, parse_date_time s = .error e)
    ∧ (∀ d t : List Char, ' ' ∉ d → ' ' ∉ t → '.' ∉ t →
      ∃ e, parse_date_time (String.mk (d ++ ' ' :: t)) = .error e) := by
  refine ⟨?_, ?_, ?_⟩
  · intro d t f hd ht hf ht2 hf2 hlen
    have hrest : ' ' ∉ t ++ '.' :: f := by
      intro hm
      rcases List.mem_append.mp hm with h | h
      · exact ht h
      · rcases List.mem_cons.mp h with h | h
        · exact absurd h (by decide)
        · exact hf h
    have h1 : pySplit ' ' (d ++ ' ' :: (t ++ '.' :: f)) = [d, t ++ '.' :: f] :=
      pySplit_pair ' ' d (t ++ '.' :: f) hd hrest
    have h2 : pySplit '.' (t ++ '.' :: f) = [t, f] := pySplit_pair '.' t f ht2 hf2
    unfold parse_date_time parse_date_time_tz
    simp [h1, h2, pyIndex, except_bind_ok, List.append_assoc]
  · intro s hs
    have h1 : pySplit ' ' s.data = [s.data] := pySplit_single ' ' s.data hs
    unfold parse_date_time parse_date_time_tz
    simp [h1, pyIndex, except_bind_ok, except_bind_error]
  · intro d t hd ht ht2
    have h1 : pySplit ' ' (d ++ ' ' :: t) = [d, t] := pySplit_pair ' ' d t hd ht
    have h2 : pySplit '.' t = [t] := pySplit_single '.' t ht2
    unfold parse_date_time parse_date_time_tz
    simp [h1, h2, pyIndex, except_bind_ok, except_bind_error]

/-- C5 witness: the amended claim applied at the claim's example input and at
inputs missing the space or the dot. -/
theorem parse_date_time_spec_holds :
    parse_date_time "2021-03-04 10:15:30.1234" = .ok "2021-03-04T10:15:30.123+00:00"
    ∧ (∃ e, parse_date_time "2021-03-04" = .error e)
    ∧ (∃ e, parse_date_time "2021-03-04 10:15:30" = .error e) := by
  refine ⟨?_, ?_, ?_⟩
  · have h1 := parse_date_time_spec.1 "2021-03-04".data "10:15:30".data "1234".data
      (by decide) (by decide) (by decide) (by decide) (by decide) (by decide)
    rw [show ("2021-03-04 10:15:30.1234" : String) =
      String.mk ("2021-03-04".data ++ ' ' :: ("10:15:30".data ++ '.' :: "1234".data)) from rfl]
    rw [h1]
    rfl
  · exact parse_date_time_spec.2.1 "2021-03-04" (by decide)
  · have h3 := parse_date_time_spec.2.2 "2021-03-04".data "10:15:30".data
      (by decide) (by decide) (by decide)
    rw [show ("2021-03-04 10:15:30" : String) =
      String.mk ("2021-03-04".data ++ ' ' :: "10:15:30".data) from rfl]
    exact h3

-- ---------------------------------------------------------------------------
-- Claim theorems C6, C10
-- ---------------------------------------------------------------------------

/-- C6 counterexample: the claim says every valid `DD.MM.YYYY` input is
normalized and returned. "01.01.1500" is a valid calendar date, but
`pd.Timestamp(day=1, month=1, year=1500)` is outside the nanosecond-epoch
range, so `parse_date` raises instead of returning "1500-01-01". -/
theorem parse_date_out_of_bounds_raises :
    isRealCalendarDate 1500 1 1 = true
    ∧ parse_date "01.01.1500" = .error "OutOfBoundsDatetime" := by
  refine ⟨rfl, rfl⟩

/-- C6 (amended): for every valid `DD.MM.YYYY` input whose calendar date lies
in the pandas-representable range 1677-09-22 .. 2262-04-11, `parse_date`
returns the same calendar date normalized to `YYYY-MM-DD`; every input where
the pattern does not match from the first character fails with the
assertion error. -/
theorem parse_date_spec (d m y : Nat) (h : pdTimestampValid y m d = true) :
    parse_date (String.mk (pad2 d ++ '.' :: (pad2 m ++ '.' :: pad4 y))) =
      .ok (String.mk (pad4 y ++ '-' :: (pad2 m ++ '-' :: pad2 d)))
    ∧ ∀ s : String, matchDatePattern s.data = none → parse_date s = .error "AssertionError" := by
  constructor
  · have := parse_date_pad d m y [] h
    rwa [List.append_nil] at this
  · intro s hs
    unfold parse_date
    rw [hs]

/-- C6 witness: the amended claim at the claim's example "04.03.2021" and at
a non-matching input. -/
theorem parse_date_spec_holds :
    parse_date "04.03.2021" = .ok "2021-03-04"
    ∧ parse_date "4.3.2021" = .error "AssertionError" := by
  have h := parse_date_spec 4 3 2021 (by decide)
  refine ⟨?_, h.2 "4.3.2021" (by decide)⟩
  have h1 := h.1
  rw [show String.mk (pad2 4 ++ '.' :: (pad2 3 ++ '.' :: pad4 2021)) = "04.03.2021" from rfl] at h1
  rw [h1]
  rfl

/-- C10 counterexample: the claim says any string whose first ten characters
match `DD.MM.YYYY` and denote a valid calendar date yields the normalized
value of the prefix. For "01.01.1500 x" the first ten characters denote the
valid calendar date 1500-01-01, yet the call raises (pandas nanosecond
bounds) instead of returning a normalized value. -/
theorem parse_date_suffix_out_of_bounds_raises :
    isRealCalendarDate 1500 1 1 = true
    ∧ parse_date "01.01.1500 x" = .error "OutOfBoundsDatetime" := by
  refine ⟨rfl, rfl⟩

/-- C10 (amended): for every string whose first ten characters match
`DD.MM.YYYY` and denote a Timestamp-representable calendar date, any suffix
after those ten characters is ignored: the call returns the same normalized
`YYYY-MM-DD` value as for the ten-character prefix alone. -/
theorem parse_date_ignores_suffix (d m y : Nat) (rest : List Char)
    (h : pdTimestampValid y m d = true) :
    parse_date (String.mk (pad2 d ++ '.' :: (pad2 m ++ '.' :: (pad4 y ++ rest)))) =
      .ok (String.mk (pad4 y ++ '-' :: (pad2 m ++ '-' :: pad2 d)))
    ∧ parse_date (String.mk (pad2 d ++ '.' :: (pad2 m ++ '.' :: pad4 y))) =
      .ok (String.mk (pad4 y ++ '-' :: (pad2 m ++ '-' :: pad2 d))) := by
  refine ⟨parse_date_pad d m y rest h, ?_⟩
  have := parse_date_pad d m y [] h
  rwa [List.append_nil] at this

/-- C10 witness: a suffixed date string parses to the same normalized value
as the bare ten-character date. -/
theorem parse_date_ignores_suffix_holds :
    parse_date "04.03.2021 23:59" = .ok "2021-03-04"
    ∧ parse_date "04.03.2021" = .ok "2021-03-04" := by
  have h := parse_date_ignores_suffix 4 3 2021 " 23:59".data (by decide)
  constructor
  · have h1 := h.1
    rw [show String.mk (pad2 4 ++ '.' :: (pad2 3 ++ '.' :: (pad4 2021 ++ " 23:59".data)))
        = "04.03.2021 23:59" from rfl] at h1
    rw [h1]
    rfl
  · have h2 := h.2
    rw [show String.mk (pad2 4 ++ '.' :: (pad2 3 ++ '.' :: pad4 2021)) = "04.03.2021" from rfl] at h2
    rw [h2]
    rfl

-- ---------------------------------------------------------------------------
-- Claim theorem C7
-- ---------------------------------------------------------------------------

/-- C7: every builder is deterministic — two calls with identical input
produce structurally equal output. Each builder is embedded as a pure
function of its row (the only wall-clock dependence, the
`strftime('%z', gmtime())` string inside `parse_date_time`, is the constant
"+0000" on every system), so equal inputs give equal outputs. -/
theorem builders_deterministic :
    (∀ r r' : PatientRow, r = r' → create_patient r = create_patient r')
    ∧ (∀ (r r' : EncounterRow) (s s' : String), r = r' → s = s' →
        create_encounter r s = create_encounter r' s')
    ∧ (∀ (r r' : DiagnoseRow) (s s' e e' : String), r = r' → s = s' → e = e' →
        create_condition r s e = create_condition r' s' e')
    ∧ (∀ (r r' : ProcedureRow) (s s' : String), r = r' → s = s' →
        create_procedure r s = create_procedure r' s')
    ∧ (∀ (r r' : ObservationRow) (s s' : String), r = r' → s = s' →
        create_observation r s = create_observation r' s') := by
  refine ⟨?_, ?_, ?_, ?_, ?_⟩ <;> intros <;> subst_vars <;> rfl

/-- C7 witness: each builder run twice on the same concrete input. -/
theorem builders_deterministic_holds :
    create_patient sample_patient_row = create_patient sample_patient_row
    ∧ create_encounter sample_encounter_row "P1" = create_encounter sample_encounter_row "P1"
    ∧ create_condition sample_diagnose_row "P1" "E1" = create_condition sample_diagnose_row "P1" "E1"
    ∧ create_procedure sample_procedure_row "P1" = create_procedure sample_procedure_row "P1"
    ∧ create_observation sample_observation_row "P1" = create_observation sample_observation_row "P1" :=
  ⟨builders_deterministic.1 sample_patient_row sample_patient_row rfl,
   builders_deterministic.2.1 sample_encounter_row sample_encounter_row "P1" "P1" rfl rfl,
   builders_deterministic.2.2.1 sample_diagnose_row sample_diagnose_row "P1" "P1" "E1" "E1" rfl rfl rfl,
   builders_deterministic.2.2.2.1 sample_procedure_row sample_procedure_row "P1" "P1" rfl rfl,
   builders_deterministic.2.2.2.2 sample_observation_row sample_observation_row "P1" "P1" rfl rfl⟩
